import Mathlib

/-!
Verification development for the hume_rs SDK transport layer.

Shallow embedding of the retry/backoff engine (src/core/retry.rs,
src/core/http.rs), the authentication expiry check (src/core/auth.rs)
and the EVI duplex chat socket (src/evi/chat.rs).

Modelling conventions:
* Rust `Duration` / `f64` quantities are modelled as rationals (`ℚ`);
  delays are in seconds.
* `serde_json::Value` is modelled by the inductive `Hume.Json`; JSON
  numbers keep the integer/float distinction that `serde_json::Number`
  makes (`num` for integers, `flo` for floats).
* The `backoff` crate's `ExponentialBackoff` (an external dependency of
  the repository) is modelled from its documented semantics: each
  `next_backoff` call returns the current interval perturbed uniformly
  within ± randomization_factor of itself (the uniform sample is an
  explicit parameter `r ∈ [0,1]`), then multiplies the current interval
  by `multiplier`, capped at `max_interval`; it returns `none` once the
  elapsed time exceeds `max_elapsed_time` (when that bound is set).
  Elapsed time is modelled as the sum of the delays slept so far.
* Async effects (sleeping, the wire) are made explicit: retry loops
  return the list of delays they slept, and socket operations report
  whether a wire write was attempted.
-/

namespace Hume

/-- Json models `serde_json::Value`: null, booleans, numbers (kept as
integer `num` or float `flo`, mirroring `serde_json::Number`), strings,
arrays and objects (ordered field lists). -/
inductive Json where
  | null : Json
  | bool (b : Bool) : Json
  | num (n : Int) : Json
  | flo (q : ℚ) : Json
  | str (s : String) : Json
  | arr (xs : List Json) : Json
  | obj (fields : List (String × Json)) : Json

/-- lookupKey finds the first value bound to key `k` in an association
list, as serde's field lookup does on a JSON object. -/
def lookupKey {α : Type} : List (String × α) → String → Option α
  | [], _ => none
  | (k2, v) :: rest, k => if k2 = k then some v else lookupKey rest k

/-- WsError models the `tokio_tungstenite::tungstenite::Error` cases that
`src/core/retry.rs` distinguishes: `ConnectionClosed`, `AlreadyClosed`,
`Io(_)`, and a representative for every other constructor. -/
inductive WsError where
  | connectionClosed : WsError
  | alreadyClosed : WsError
  | ioErr : WsError
  | otherWs : WsError
deriving DecidableEq

/-- ReqwestError models the observable classification surface of a
`reqwest::Error`: the `is_timeout()` and `is_connect()` predicates and
the optional HTTP status of the response it carries. -/
structure ReqwestError where
  timeout : Bool
  connect : Bool
  status : Option Nat
deriving DecidableEq

/-- Error mirrors `Error` from src/core/error.rs.  Payloads irrelevant to
the claims (source error objects) are dropped; message strings are kept. -/
inductive Error where
  | http (e : ReqwestError) : Error
  | json : Error
  | webSocket (e : WsError) : Error
  | api (status : Nat) (message : String) (code : Option String) (body : Option String) : Error
  | auth (msg : String) : Error
  | config (msg : String) : Error
  | validation (msg : String) : Error
  | ioError : Error
  | urlParse : Error
  | base64 : Error
  | timeout : Error
  | rateLimit (retry_after : Option Nat) : Error
  | other (msg : String) : Error
deriving DecidableEq

/-- RetryConfig mirrors `RetryConfig` from src/core/retry.rs; the two
`Duration` fields are rational numbers of seconds, the `f64` multiplier
is a rational. -/
structure RetryConfig where
  max_retries : Nat
  initial_backoff : ℚ
  max_backoff : ℚ
  backoff_multiplier : ℚ

/-- defaultRetryConfig mirrors `RetryConfig::default()`:
3 retries, 100 ms initial, 10 s max, multiplier 2. -/
def defaultRetryConfig : RetryConfig :=
  { max_retries := 3, initial_backoff := 1/10, max_backoff := 10, backoff_multiplier := 2 }

/-- is_retryable_error mirrors `is_retryable_error` from
src/core/retry.rs lines 50-75: HTTP errors with timeout/connect or a
5xx / 429 status, rate-limit errors, timeout errors, and the
ConnectionClosed/AlreadyClosed/Io WebSocket errors are retryable;
everything else is not. -/
def is_retryable_error : Error → Bool
  | .http e =>
      e.timeout || e.connect ||
        (match e.status with
         | some s => decide (500 ≤ s) || decide (s = 429)
         | none => false)
  | .rateLimit _ => true
  | .timeout => true
  | .webSocket e =>
      match e with
      | .connectionClosed => true
      | .alreadyClosed => true
      | .ioErr => true
      | _ => false
  | _ => false

/-- get_retry_after mirrors `get_retry_after` from src/core/retry.rs
lines 78-84: only a `RateLimit` error carries a retry-after value
(seconds). -/
def get_retry_after : Error → Option Nat
  | .rateLimit retry_after => retry_after
  | _ => none

/-- ExponentialBackoff models the state of the `backoff` crate's
exponential backoff: the evolving current interval, the jitter fraction,
the multiplier, the interval cap, and the optional elapsed-time bound. -/
structure ExponentialBackoff where
  current_interval : ℚ
  randomization_factor : ℚ
  multiplier : ℚ
  max_interval : ℚ
  max_elapsed_time : Option ℚ

/-- defaultBackoff mirrors `ExponentialBackoff::default()` from the
backoff crate: 500 ms initial interval, randomization factor 0.5,
multiplier 1.5, 60 s max interval, 15 min max elapsed time. -/
def defaultBackoff : ExponentialBackoff :=
  { current_interval := 1/2
    randomization_factor := 1/2
    multiplier := 3/2
    max_interval := 60
    max_elapsed_time := some 900 }

/-- jittered is the uniformly perturbed delay the backoff crate draws:
for a uniform sample `r ∈ [0,1]` the returned delay is
`c - rf*c + r * (2*rf*c)`, i.e. within ± rf of the current interval c. -/
def jittered (rf r c : ℚ) : ℚ :=
  c * (1 - rf + 2 * rf * r)

/-- ExponentialBackoff.step is the deterministic state update of one
`next_backoff` call: the current interval is multiplied and capped at
`max_interval`. -/
def ExponentialBackoff.step (b : ExponentialBackoff) : ExponentialBackoff :=
  { b with current_interval := min (b.current_interval * b.multiplier) b.max_interval }

/-- ExponentialBackoff.next_backoff models one `next_backoff` call of the
backoff crate: `none` when the elapsed time has exceeded the configured
`max_elapsed_time`, otherwise the jittered current interval together
with the stepped state.  `elapsed` is the time slept so far and `r` the
uniform jitter sample of this call. -/
def ExponentialBackoff.next_backoff (b : ExponentialBackoff) (elapsed r : ℚ) :
    Option (ℚ × ExponentialBackoff) :=
  match b.max_elapsed_time with
  | some m =>
      if m < elapsed then none
      else some (jittered b.randomization_factor r b.current_interval, b.step)
  | none => some (jittered b.randomization_factor r b.current_interval, b.step)

/-- create_backoff mirrors `create_backoff` from src/core/retry.rs lines
87-95: initial interval, max interval and multiplier from the config,
randomization factor 0.5, and no max elapsed time. -/
def create_backoff (config : RetryConfig) : ExponentialBackoff :=
  { current_interval := config.initial_backoff
    randomization_factor := 1/2
    multiplier := config.backoff_multiplier
    max_interval := config.max_backoff
    max_elapsed_time := none }

/-- ExponentialBackoff.advance applies `n` deterministic backoff steps;
it is the state after `n` `next_backoff` calls (the jitter samples of
those calls do not influence the state). -/
def ExponentialBackoff.advance (b : ExponentialBackoff) : Nat → ExponentialBackoff
  | 0 => b
  | n + 1 => (ExponentialBackoff.advance b n).step

/-- RetryConfig.calculate_backoff mirrors `RetryConfig::calculate_backoff`
from src/core/retry.rs lines 33-46: it creates a fresh backoff from the
config, advances it `retry_attempt` times (with `max_elapsed_time = none`
the advancing calls never return `None`, so the early-return branch is
dead), and returns the value of the next `next_backoff` call, whose
jitter sample is `r`. -/
def RetryConfig.calculate_backoff (config : RetryConfig) (retry_attempt : Nat) (r : ℚ) : ℚ :=
  let b := (create_backoff config).advance retry_attempt
  jittered b.randomization_factor r b.current_interval

/-- retry_with_backoff mirrors `retry_with_backoff` from
src/core/retry.rs lines 98-142.  The async operation is modelled as a
function from the attempt index (= the current value of the `retries`
counter) to its outcome; `rs` supplies the jitter sample of each
`next_backoff` call; `acc` is the list of delays slept so far (its sum
is the elapsed time); `fuel` bounds the loop and `none` means the fuel
ran out.  On termination the result is returned together with the final
`retries` counter and the delays slept, in order.  As in the source,
when a retry-after value is present it is used as the delay and the
backoff state is not advanced. -/
def retry_with_backoff {T : Type} (config : RetryConfig) (operation : Nat → Except Error T)
    (rs : Nat → ℚ) : Nat → ExponentialBackoff → Nat → List ℚ →
    Option (Except Error T × Nat × List ℚ)
  | 0, _, _, _ => none
  | fuel + 1, b, retries, acc =>
    match operation retries with
    | .ok result => some (.ok result, retries, acc)
    | .error e =>
      if config.max_retries ≤ retries ∨ is_retryable_error e = false then
        some (.error e, retries, acc)
      else
        match get_retry_after e with
        | some retry_after =>
            retry_with_backoff config operation rs fuel b (retries + 1)
              (acc ++ [(retry_after : ℚ)])
        | none =>
          match b.next_backoff (acc.sum) (rs retries) with
          | some db => retry_with_backoff config operation rs fuel db.2 (retries + 1) (acc ++ [db.1])
          | none => some (.error e, retries, acc)

/-- run_retry_with_backoff starts `retry_with_backoff` the way the
source does: with a fresh backoff from the config, a zero retries
counter, and nothing slept yet. -/
def run_retry_with_backoff {T : Type} (config : RetryConfig) (operation : Nat → Except Error T)
    (rs : Nat → ℚ) (fuel : Nat) : Option (Except Error T × Nat × List ℚ) :=
  retry_with_backoff config operation rs fuel (create_backoff config) 0 []

/-- HttpResponse models the part of a `reqwest::Response` the engine
inspects: the status code, the parsed `retry-after` header, the raw body
text, and the result of parsing the body as `ApiErrorDetails`
(`some (message, code)` when `serde_json::from_str` succeeds). -/
structure HttpResponse where
  status : Nat
  retry_after : Option Nat
  body : Option String
  err_details : Option (String × Option String)
deriving DecidableEq

/-- AttemptOutcome is the outcome of one `request.send().await` in
`HttpClient::execute_request`: either the send itself failed with a
`reqwest::Error`, or a response arrived. -/
inductive AttemptOutcome where
  | sendErr (e : ReqwestError) : AttemptOutcome
  | response (r : HttpResponse) : AttemptOutcome

/-- should_retry mirrors `HttpClient::should_retry` from
src/core/http.rs: a reqwest error triggers a retry when it is a connect
or a timeout error. -/
def should_retry (e : ReqwestError) : Bool :=
  e.connect || e.timeout

/-- should_retry_status mirrors `HttpClient::should_retry_status` from
src/core/http.rs: server errors (5xx) and 429 Too Many Requests. -/
def should_retry_status (status : Nat) : Bool :=
  (decide (500 ≤ status) && decide (status ≤ 599)) || decide (status = 429)

/-- BackoffError models `backoff::Error`: a permanent error stops the
retry combinator at once, a transient one lets it retry. -/
inductive BackoffError where
  | permanent (e : Error) : BackoffError
  | transient (e : Error) : BackoffError

/-- attemptResult is the body of the closure passed to `retry` in
`HttpClient::execute_request` (src/core/http.rs lines 169-224), given
the outcome of this attempt's send: a timeout maps to a permanent
`Error::Timeout`; other send failures are transient iff `should_retry`
holds; a response with a retryable status becomes a transient generic
`Error::other` message when `max_retries > 0`, and is otherwise returned
as a success. -/
def attemptResult (max_retries : Nat) : AttemptOutcome → Except BackoffError HttpResponse
  | .sendErr e =>
      if e.timeout then .error (.permanent .timeout)
      else if should_retry e then .error (.transient (.http e))
      else .error (.permanent (.http e))
  | .response r =>
      if should_retry_status r.status then
        if 0 < max_retries then
          .error (.transient (.other ("Received retryable status: " ++ toString r.status)))
        else .ok r
      else .ok r

/-- httpBackoff is the backoff `HttpClient::execute_request` builds:
the crate's defaults with `max_elapsed_time` overridden to 60 s. -/
def httpBackoff : ExponentialBackoff :=
  { defaultBackoff with max_elapsed_time := some 60 }

/-- retryOperation models the backoff crate's `retry` combinator driving
`attemptResult`: on a transient error it asks the backoff for the next
delay, sleeps it and retries; it stops with the transient error once
`next_backoff` reports the elapsed bound exceeded.  `op` maps the
attempt index to that attempt's outcome, `k` counts the attempts already
made, `acc` lists the delays slept (its sum is the elapsed time).  On
termination it returns the result, the number of attempts made, and the
delays. -/
def retryOperation (max_retries : Nat) (op : Nat → AttemptOutcome) (rs : Nat → ℚ) :
    Nat → ExponentialBackoff → Nat → List ℚ →
    Option (Except Error HttpResponse × Nat × List ℚ)
  | 0, _, _, _ => none
  | fuel + 1, b, k, acc =>
    match attemptResult max_retries (op k) with
    | .ok r => some (.ok r, k + 1, acc)
    | .error (.permanent e) => some (.error e, k + 1, acc)
    | .error (.transient e) =>
      match b.next_backoff (acc.sum) (rs k) with
      | none => some (.error e, k + 1, acc)
      | some db => retryOperation max_retries op rs fuel db.2 (k + 1) (acc ++ [db.1])

/-- execute_request models `HttpClient::execute_request` from
src/core/http.rs lines 153-225: it runs the attempt closure under the
backoff crate's `retry` combinator with `httpBackoff`. -/
def execute_request (max_retries : Nat) (op : Nat → AttemptOutcome) (rs : Nat → ℚ)
    (fuel : Nat) : Option (Except Error HttpResponse × Nat × List ℚ) :=
  retryOperation max_retries op rs fuel httpBackoff 0 []

/-- handle_error_response mirrors `HttpClient::handle_error_response`
from src/core/http.rs lines 233-260: a 429 becomes `Error::RateLimit`
with the parsed retry-after header; any other status becomes
`Error::Api` with the message/code parsed from the body when possible,
else a generic `HTTP <status> error` message. -/
def handle_error_response (r : HttpResponse) : Error :=
  if r.status = 429 then .rateLimit r.retry_after
  else
    match r.err_details with
    | some mc => .api r.status mc.1 mc.2 r.body
    | none => .api r.status ("HTTP " ++ toString r.status ++ " error") none r.body

/-- is_success mirrors `StatusCode::is_success`: 200-299. -/
def is_success (status : Nat) : Bool :=
  decide (200 ≤ status) && decide (status ≤ 299)

/-- request models `HttpClient::request` from src/core/http.rs lines
129-150: it executes the request via `execute_request`, then on a
non-success status turns the response into an error via
`handle_error_response`.  Decoding a success body into the caller's
typed value is outside the claims and the response itself stands for
the decoded value. -/
def request (max_retries : Nat) (op : Nat → AttemptOutcome) (rs : Nat → ℚ)
    (fuel : Nat) : Option (Except Error HttpResponse × Nat × List ℚ) :=
  match execute_request max_retries op rs fuel with
  | none => none
  | some (.error e, n, ds) => some (.error e, n, ds)
  | some (.ok r, n, ds) =>
      if is_success r.status then some (.ok r, n, ds)
      else some (.error (handle_error_response r), n, ds)

/-- AuthToken mirrors `AuthToken` from src/core/auth.rs: the bearer
credential with its creation instant (`created_at`, an integer number of
seconds on the model's absolute timeline) and its time to live
`expires_in` in seconds. -/
structure AuthToken where
  access_token : String
  token_type : String
  expires_in : Nat
  created_at : Int

/-- AuthToken.is_expired mirrors `AuthToken::is_expired` from
src/core/auth.rs lines 78-81: the token is expired iff the current
instant `now` has reached `created_at + expires_in`. -/
def AuthToken.is_expired (t : AuthToken) (now : Int) : Bool :=
  decide (t.created_at + (t.expires_in : Int) ≤ now)

/-- Auth mirrors `Auth` from src/core/auth.rs: a static API key or a
bearer access token. -/
inductive Auth where
  | ApiKey (key : String) : Auth
  | AccessToken (token : AuthToken) : Auth

/-- Auth.is_expired mirrors `Auth::is_expired` from src/core/auth.rs
lines 44-49: an API key never expires; an access token defers to
`AuthToken::is_expired`. -/
def Auth.is_expired (a : Auth) (now : Int) : Bool :=
  match a with
  | .ApiKey _ => false
  | .AccessToken token => token.is_expired now

/-- AudioEncoding mirrors `AudioEncoding` from src/evi/models.rs. -/
inductive AudioEncoding where
  | Linear16 : AudioEncoding
  | Mulaw : AudioEncoding

/-- AudioFormat mirrors `AudioFormat` from src/evi/models.rs. -/
inductive AudioFormat where
  | Raw : AudioFormat
  | Wav : AudioFormat
  | Mp3 : AudioFormat

/-- ContextType mirrors `ContextType` from src/evi/models.rs. -/
inductive ContextType where
  | Persistent : ContextType
  | Temporary : ContextType

/-- Context mirrors `Context` from src/evi/models.rs; the field
`context_type` is serialized under the JSON key `type`. -/
structure Context where
  context_type : ContextType
  text : String

/-- BuiltinTool mirrors `BuiltinTool` from src/evi/models.rs; `config`
is an arbitrary `serde_json::Value`. -/
structure BuiltinTool where
  name : String
  config : Option Json

/-- AudioConfig mirrors `AudioConfig` from src/evi/models.rs; `u32`
fields are modelled as `ℕ`. -/
structure AudioConfig where
  input_encoding : Option AudioEncoding
  input_sample_rate : Option Nat
  output_encoding : Option AudioEncoding
  output_sample_rate : Option Nat
  output_format : Option AudioFormat

/-- SessionSettings mirrors `SessionSettings` from src/evi/models.rs;
the `HashMap<String, String>` of the source field `variables` is
modelled as an ordered association list under the field name `varMap`
(`variables` is a reserved word here); it is still serialized under the
JSON key `variables`. -/
structure SessionSettings where
  audio : Option AudioConfig
  system_prompt : Option String
  context : Option Context
  varMap : Option (List (String × String))
  tools : Option (List String)
  builtin_tools : Option (List BuiltinTool)

/-- ClientMessage mirrors `ClientMessage` from src/evi/chat.rs lines
253-303: the outbound tagged union, serialized internally tagged under
the `type` key with snake_case variant names. -/
inductive ClientMessage where
  | SessionSettings (settings : SessionSettings) : ClientMessage
  | AudioInput (data : String) : ClientMessage
  | UserInput (text : String) : ClientMessage
  | AssistantInput (text : String) : ClientMessage
  | ToolResponse (tool_call_id : String) (content : String) (tool_name : Option String) : ClientMessage
  | ToolError (tool_call_id : String) (error : String) (code : Option String)
      (tool_name : Option String) : ClientMessage
  | PauseAssistant : ClientMessage
  | ResumeAssistant : ClientMessage

/-- optField renders one `#[serde(skip_serializing_if = "Option::is_none")]`
field: absent when `none`, a single binding when `some`. -/
def optField (k : String) : Option Json → List (String × Json)
  | none => []
  | some j => [(k, j)]

/-- encodeAudioEncoding is serde's snake_case unit-variant encoding of
`AudioEncoding`. -/
def encodeAudioEncoding : AudioEncoding → Json
  | .Linear16 => .str "linear16"
  | .Mulaw => .str "mulaw"

/-- decodeAudioEncoding is serde's snake_case unit-variant decoding of
`AudioEncoding`. -/
def decodeAudioEncoding : Json → Option AudioEncoding
  | .str "linear16" => some .Linear16
  | .str "mulaw" => some .Mulaw
  | _ => none

/-- encodeAudioFormat is serde's snake_case unit-variant encoding of
`AudioFormat`. -/
def encodeAudioFormat : AudioFormat → Json
  | .Raw => .str "raw"
  | .Wav => .str "wav"
  | .Mp3 => .str "mp3"

/-- decodeAudioFormat is serde's snake_case unit-variant decoding of
`AudioFormat`. -/
def decodeAudioFormat : Json → Option AudioFormat
  | .str "raw" => some .Raw
  | .str "wav" => some .Wav
  | .str "mp3" => some .Mp3
  | _ => none

/-- encodeContextType is serde's snake_case unit-variant encoding of
`ContextType`. -/
def encodeContextType : ContextType → Json
  | .Persistent => .str "persistent"
  | .Temporary => .str "temporary"

/-- decodeContextType is serde's snake_case unit-variant decoding of
`ContextType`. -/
def decodeContextType : Json → Option ContextType
  | .str "persistent" => some .Persistent
  | .str "temporary" => some .Temporary
  | _ => none

/-- decodeString decodes a JSON string, as serde does for `String`. -/
def decodeString : Json → Option String
  | .str s => some s
  | _ => none

/-- decodeU32 decodes a `u32` field: serde_json accepts a non-negative
integer JSON number (the `u32` upper bound is not modelled, `u32` being
modelled as `ℕ`). -/
def decodeU32 : Json → Option Nat
  | .num n => if 0 ≤ n then some n.toNat else none
  | _ => none

/-- decodeBool decodes a JSON boolean. -/
def decodeBool : Json → Option Bool
  | .bool b => some b
  | _ => none

/-- decodeF32 decodes an `f32` field (modelled as `ℚ`): serde accepts
both integer and float JSON numbers. -/
def decodeF32 : Json → Option ℚ
  | .num n => some (n : ℚ)
  | .flo q => some q
  | _ => none

/-- optDec reads an optional struct field the way serde's derive treats
`Option<T>`: a missing key is `none`; a present value must decode.
(The inbound, code-derived decoders additionally map an explicit JSON
null to `none`; see optDecS.) -/
def optDec {α : Type} (fields : List (String × Json)) (k : String)
    (dec : Json → Option α) : Option (Option α) :=
  match lookupKey fields k with
  | none => some none
  | some j => (dec j).map some

/-- optDecS reads an optional struct field with serde's full `Option<T>`
behaviour: missing key or explicit null is `none`. -/
def optDecS {α : Type} (fields : List (String × Json)) (k : String)
    (dec : Json → Option α) : Option (Option α) :=
  match lookupKey fields k with
  | none => some none
  | some .null => some none
  | some j => (dec j).map some

/-- reqDec reads a required struct field: the key must be present and
its value must decode. -/
def reqDec {α : Type} (fields : List (String × Json)) (k : String)
    (dec : Json → Option α) : Option α :=
  (lookupKey fields k).bind dec

/-- encodeContext is serde's encoding of `Context` (the `context_type`
field renamed to `type`). -/
def encodeContext : Context → Json
  | ⟨ct, text⟩ => .obj [("type", encodeContextType ct), ("text", .str text)]

/-- decodeContext is serde's decoding of `Context`. -/
def decodeContext : Json → Option Context
  | .obj fs =>
    match reqDec fs "type" decodeContextType, reqDec fs "text" decodeString with
    | some ct, some text => some ⟨ct, text⟩
    | _, _ => none
  | _ => none

/-- encodeAudioConfig is serde's encoding of `AudioConfig`: each field
is optional and skipped when `none`. -/
def encodeAudioConfig : AudioConfig → Json
  | ⟨ie, isr, oe, osr, ofmt⟩ =>
    .obj (optField "input_encoding" (ie.map encodeAudioEncoding)
      ++ optField "input_sample_rate" (isr.map (fun n => .num (n : Int)))
      ++ optField "output_encoding" (oe.map encodeAudioEncoding)
      ++ optField "output_sample_rate" (osr.map (fun n => .num (n : Int)))
      ++ optField "output_format" (ofmt.map encodeAudioFormat))

/-- decodeAudioConfig is serde's decoding of `AudioConfig`. -/
def decodeAudioConfig : Json → Option AudioConfig
  | .obj fs =>
    match optDec fs "input_encoding" decodeAudioEncoding,
        optDec fs "input_sample_rate" decodeU32,
        optDec fs "output_encoding" decodeAudioEncoding,
        optDec fs "output_sample_rate" decodeU32,
        optDec fs "output_format" decodeAudioFormat with
    | some a, some b, some c, some d, some e => some ⟨a, b, c, d, e⟩
    | _, _, _, _, _ => none
  | _ => none

/-- encodeVariables is serde's encoding of the `HashMap<String, String>`
variable map as a JSON object. -/
def encodeVariables (l : List (String × String)) : Json :=
  .obj (l.map fun p => (p.1, .str p.2))

/-- decodeStringMap decodes a JSON object all of whose values are
strings, as serde does for `HashMap<String, String>`. -/
def decodeStringMap : List (String × Json) → Option (List (String × String))
  | [] => some []
  | (k, .str v) :: rest => (decodeStringMap rest).map (fun t => (k, v) :: t)
  | _ => none

/-- decodeVariables is serde's decoding of the variable map. -/
def decodeVariables : Json → Option (List (String × String))
  | .obj fs => decodeStringMap fs
  | _ => none

/-- decodeStringList decodes a JSON array of strings, as serde does for
`Vec<String>`. -/
def decodeStringList : List Json → Option (List String)
  | [] => some []
  | .str s :: rest => (decodeStringList rest).map (fun t => s :: t)
  | _ => none

/-- encodeBuiltinTool is serde's encoding of `BuiltinTool`: a required
`name` and an optional `config` holding an arbitrary JSON value. -/
def encodeBuiltinTool : BuiltinTool → Json
  | ⟨name, cfg⟩ => .obj (("name", .str name) :: optField "config" cfg)

/-- decodeBuiltinTool is serde's decoding of `BuiltinTool`; the `config`
value is kept verbatim, as `serde_json::Value` deserialization never
fails. -/
def decodeBuiltinTool : Json → Option BuiltinTool
  | .obj fs =>
    match reqDec fs "name" decodeString, optDec fs "config" some with
    | some name, some cfg => some ⟨name, cfg⟩
    | _, _ => none
  | _ => none

/-- decodeBuiltinToolList decodes a JSON array of builtin tools. -/
def decodeBuiltinToolList : List Json → Option (List BuiltinTool)
  | [] => some []
  | j :: rest =>
    match decodeBuiltinTool j with
    | some t => (decodeBuiltinToolList rest).map (fun r => t :: r)
    | none => none

/-- encodeSessionSettings is serde's encoding of `SessionSettings`: all
six fields optional and skipped when `none`. -/
def encodeSessionSettings : SessionSettings → Json
  | ⟨a, sp, cx, vars, tls, bts⟩ =>
    .obj (optField "audio" (a.map encodeAudioConfig)
      ++ optField "system_prompt" (sp.map .str)
      ++ optField "context" (cx.map encodeContext)
      ++ optField "variables" (vars.map encodeVariables)
      ++ optField "tools" (tls.map (fun l => .arr (l.map .str)))
      ++ optField "builtin_tools" (bts.map (fun l => .arr (l.map encodeBuiltinTool))))

/-- decodeSessionSettings is serde's decoding of `SessionSettings`. -/
def decodeSessionSettings : Json → Option SessionSettings
  | .obj fs =>
    match optDec fs "audio" decodeAudioConfig,
        optDec fs "system_prompt" decodeString,
        optDec fs "context" decodeContext,
        optDec fs "variables" decodeVariables,
        optDec fs "tools" (fun j => match j with | .arr xs => decodeStringList xs | _ => none),
        optDec fs "builtin_tools"
          (fun j => match j with | .arr xs => decodeBuiltinToolList xs | _ => none) with
    | some a, some b, some c, some d, some e, some f => some ⟨a, b, c, d, e, f⟩
    | _, _, _, _, _, _ => none
  | _ => none

/-- encodeClientMessage mirrors the serde serialization of
`ClientMessage` (src/evi/chat.rs lines 253-303): internally tagged under
`type`, snake_case variant tags, optional fields skipped when `none`. -/
def encodeClientMessage : ClientMessage → Json
  | .SessionSettings s =>
      .obj [("type", .str "session_settings"), ("settings", encodeSessionSettings s)]
  | .AudioInput data =>
      .obj [("type", .str "audio_input"), ("data", .str data)]
  | .UserInput text =>
      .obj [("type", .str "user_input"), ("text", .str text)]
  | .AssistantInput text =>
      .obj [("type", .str "assistant_input"), ("text", .str text)]
  | .ToolResponse tcid content tn =>
      .obj (("type", .str "tool_response") :: ("tool_call_id", .str tcid)
        :: ("content", .str content) :: optField "tool_name" (tn.map .str))
  | .ToolError tcid err code tn =>
      .obj (("type", .str "tool_error") :: ("tool_call_id", .str tcid)
        :: ("error", .str err) :: (optField "code" (code.map .str)
        ++ optField "tool_name" (tn.map .str)))
  | .PauseAssistant => .obj [("type", .str "pause_assistant")]
  | .ResumeAssistant => .obj [("type", .str "resume_assistant")]

/-- Modelled from the spec: `ClientMessage` only derives `Serialize` in
src/evi/chat.rs, so the repository holds no decoder for it; the spec's
round-trip law (§8) and §9's "one discriminator-keyed encode/decode
mapping per variant, plus an Unknown catch-all" call for the
discriminator-keyed inverse, modelled here: dispatch on the `type` tag
and read each variant's fields (optional fields absent ↦ `none`). -/
def decodeClientMessage : Json → Option ClientMessage
  | .obj fs =>
    match lookupKey fs "type" with
    | some (.str "session_settings") =>
        ((lookupKey fs "settings").bind decodeSessionSettings).map .SessionSettings
    | some (.str "audio_input") => (reqDec fs "data" decodeString).map .AudioInput
    | some (.str "user_input") => (reqDec fs "text" decodeString).map .UserInput
    | some (.str "assistant_input") => (reqDec fs "text" decodeString).map .AssistantInput
    | some (.str "tool_response") =>
      (match reqDec fs "tool_call_id" decodeString, reqDec fs "content" decodeString,
          optDec fs "tool_name" decodeString with
       | some tcid, some content, some tn => some (.ToolResponse tcid content tn)
       | _, _, _ => none)
    | some (.str "tool_error") =>
      (match reqDec fs "tool_call_id" decodeString, reqDec fs "error" decodeString,
          optDec fs "code" decodeString, optDec fs "tool_name" decodeString with
       | some tcid, some err, some code, some tn => some (.ToolError tcid err code tn)
       | _, _, _, _ => none)
    | some (.str "pause_assistant") => some .PauseAssistant
    | some (.str "resume_assistant") => some .ResumeAssistant
    | _ => none
  | _ => none

/-- DateTimeStr models a `chrono::DateTime<Utc>` by its RFC3339 string
rendering; parsing the timestamp text is abstracted (any JSON string
stands for a successfully parsed timestamp). -/
structure DateTimeStr where
  raw : String

/-- decodeDateTime decodes a timestamp field: serde/chrono expects a
JSON string. -/
def decodeDateTime : Json → Option DateTimeStr
  | .str s => some ⟨s⟩
  | _ => none

/-- PromptSpec mirrors `PromptSpec` from src/evi/models.rs. -/
structure PromptSpec where
  id : String
  version : Option Nat

/-- VoiceSpec mirrors `VoiceSpec` from src/evi/models.rs. -/
structure VoiceSpec where
  id : String

/-- LanguageModelSpec mirrors `LanguageModelSpec` from
src/evi/models.rs; the `f32` temperature is modelled as `ℚ`. -/
structure LanguageModelSpec where
  model_provider : String
  model_resource : String
  temperature : Option ℚ

/-- ToolSpec mirrors `ToolSpec` from src/evi/models.rs. -/
structure ToolSpec where
  id : String
  version : Option Nat

/-- EventMessagesSpec mirrors `EventMessagesSpec` from
src/evi/models.rs. -/
structure EventMessagesSpec where
  on_new_chat : Option String
  on_inactivity_timeout : Option String
  on_max_duration_timeout : Option String

/-- TimeoutsSpec mirrors `TimeoutsSpec` from src/evi/models.rs. -/
structure TimeoutsSpec where
  inactivity : Option Nat
  max_duration : Option Nat

/-- Config mirrors `Config` from src/evi/models.rs lines 111-152. -/
structure Config where
  id : String
  name : String
  version : Nat
  prompt : Option PromptSpec
  voice : Option VoiceSpec
  language_model : Option LanguageModelSpec
  tools : Option (List ToolSpec)
  event_messages : Option EventMessagesSpec
  timeouts : Option TimeoutsSpec
  created_at : Option DateTimeStr
  updated_at : Option DateTimeStr

/-- Prosody mirrors `Prosody` from src/evi/models.rs. -/
structure Prosody where
  pitch : ℚ
  energy : ℚ
  speech_rate : ℚ

/-- EmotionInference mirrors `EmotionInference` from src/evi/models.rs;
the `HashMap<String, f32>` of emotions is modelled as an association
list. -/
structure EmotionInference where
  emotions : List (String × ℚ)
  prosody : Option Prosody

/-- decodePromptSpec is serde's decoding of `PromptSpec`. -/
def decodePromptSpec : Json → Option PromptSpec
  | .obj fs =>
    match reqDec fs "id" decodeString, optDecS fs "version" decodeU32 with
    | some id, some v => some ⟨id, v⟩
    | _, _ => none
  | _ => none

/-- decodeVoiceSpec is serde's decoding of `VoiceSpec`. -/
def decodeVoiceSpec : Json → Option VoiceSpec
  | .obj fs =>
    match reqDec fs "id" decodeString with
    | some id => some ⟨id⟩
    | none => none
  | _ => none

/-- decodeLanguageModelSpec is serde's decoding of `LanguageModelSpec`. -/
def decodeLanguageModelSpec : Json → Option LanguageModelSpec
  | .obj fs =>
    match reqDec fs "model_provider" decodeString, reqDec fs "model_resource" decodeString,
        optDecS fs "temperature" decodeF32 with
    | some p, some r, some t => some ⟨p, r, t⟩
    | _, _, _ => none
  | _ => none

/-- decodeToolSpec is serde's decoding of `ToolSpec`. -/
def decodeToolSpec : Json → Option ToolSpec
  | .obj fs =>
    match reqDec fs "id" decodeString, optDecS fs "version" decodeU32 with
    | some id, some v => some ⟨id, v⟩
    | _, _ => none
  | _ => none

/-- decodeToolSpecList decodes a JSON array of tool specs. -/
def decodeToolSpecList : List Json → Option (List ToolSpec)
  | [] => some []
  | j :: rest =>
    match decodeToolSpec j with
    | some t => (decodeToolSpecList rest).map (fun r => t :: r)
    | none => none

/-- decodeEventMessagesSpec is serde's decoding of `EventMessagesSpec`. -/
def decodeEventMessagesSpec : Json → Option EventMessagesSpec
  | .obj fs =>
    match optDecS fs "on_new_chat" decodeString, optDecS fs "on_inactivity_timeout" decodeString,
        optDecS fs "on_max_duration_timeout" decodeString with
    | some a, some b, some c => some ⟨a, b, c⟩
    | _, _, _ => none
  | _ => none

/-- decodeTimeoutsSpec is serde's decoding of `TimeoutsSpec`. -/
def decodeTimeoutsSpec : Json → Option TimeoutsSpec
  | .obj fs =>
    match optDecS fs "inactivity" decodeU32, optDecS fs "max_duration" decodeU32 with
    | some a, some b => some ⟨a, b⟩
    | _, _ => none
  | _ => none

/-- decodeConfig is serde's decoding of `Config`. -/
def decodeConfig : Json → Option Config
  | .obj fs =>
    match reqDec fs "id" decodeString, reqDec fs "name" decodeString,
        reqDec fs "version" decodeU32, optDecS fs "prompt" decodePromptSpec,
        optDecS fs "voice" decodeVoiceSpec,
        optDecS fs "language_model" decodeLanguageModelSpec,
        optDecS fs "tools" (fun j => match j with | .arr xs => decodeToolSpecList xs | _ => none),
        optDecS fs "event_messages" decodeEventMessagesSpec,
        optDecS fs "timeouts" decodeTimeoutsSpec,
        optDecS fs "created_at" decodeDateTime, optDecS fs "updated_at" decodeDateTime with
    | some a, some b, some c, some d, some e, some f, some g, some h, some i, some j, some k =>
        some ⟨a, b, c, d, e, f, g, h, i, j, k⟩
    | _, _, _, _, _, _, _, _, _, _, _ => none
  | _ => none

/-- decodeNumMap decodes a JSON object all of whose values are numbers,
as serde does for `HashMap<String, f32>`. -/
def decodeNumMap : List (String × Json) → Option (List (String × ℚ))
  | [] => some []
  | (k, v) :: rest =>
    match decodeF32 v with
    | some q => (decodeNumMap rest).map (fun t => (k, q) :: t)
    | none => none

/-- decodeProsody is serde's decoding of `Prosody`. -/
def decodeProsody : Json → Option Prosody
  | .obj fs =>
    match reqDec fs "pitch" decodeF32, reqDec fs "energy" decodeF32,
        reqDec fs "speech_rate" decodeF32 with
    | some p, some e, some r => some ⟨p, e, r⟩
    | _, _, _ => none
  | _ => none

/-- decodeEmotionInference is serde's decoding of `EmotionInference`. -/
def decodeEmotionInference : Json → Option EmotionInference
  | .obj fs =>
    match reqDec fs "emotions" (fun j => match j with | .obj m => decodeNumMap m | _ => none),
        optDecS fs "prosody" decodeProsody with
    | some em, some pr => some ⟨em, pr⟩
    | _, _ => none
  | _ => none

/-- ServerMessage mirrors `ServerMessage` from src/evi/chat.rs lines
306-405: the inbound tagged union, deserialized internally tagged under
`type` with snake_case tags, with `#[serde(other)] Unknown` catching
every unrecognized tag. -/
inductive ServerMessage where
  | SessionStarted (session_id : String) (chat_id : String) (chat_group_id : String)
      (config : Config) : ServerMessage
  | UserMessage (message_id : String) (text : String) : ServerMessage
  | AssistantMessage (message_id : String) (text : String) (is_final : Bool) : ServerMessage
  | AudioOutput (message_id : String) (data : String) (index : Nat) : ServerMessage
  | ToolCall (tool_call_id : String) (name : String) (parameters : Json) : ServerMessage
  | ToolResponse (tool_call_id : String) (content : String) : ServerMessage
  | ToolError (tool_call_id : String) (error : String) (code : Option String) : ServerMessage
  | EmotionInference (inference : EmotionInference) : ServerMessage
  | Error (message : String) (code : String) (details : Option Json) : ServerMessage
  | Warning (message : String) (code : Option String) : ServerMessage
  | SessionEnded (reason : String) (info : Option Json) : ServerMessage
  | Unknown : ServerMessage

/-- decSessionStarted decodes the `session_started` variant's fields. -/
def decSessionStarted (fs : List (String × Json)) : Option ServerMessage :=
  match reqDec fs "session_id" decodeString, reqDec fs "chat_id" decodeString,
      reqDec fs "chat_group_id" decodeString, reqDec fs "config" decodeConfig with
  | some a, some b, some c, some d => some (.SessionStarted a b c d)
  | _, _, _, _ => none

/-- decUserMessage decodes the `user_message` variant's fields. -/
def decUserMessage (fs : List (String × Json)) : Option ServerMessage :=
  match reqDec fs "message_id" decodeString, reqDec fs "text" decodeString with
  | some a, some b => some (.UserMessage a b)
  | _, _ => none

/-- decAssistantMessage decodes the `assistant_message` variant's
fields. -/
def decAssistantMessage (fs : List (String × Json)) : Option ServerMessage :=
  match reqDec fs "message_id" decodeString, reqDec fs "text" decodeString,
      reqDec fs "is_final" decodeBool with
  | some a, some b, some c => some (.AssistantMessage a b c)
  | _, _, _ => none

/-- decAudioOutput decodes the `audio_output` variant's fields. -/
def decAudioOutput (fs : List (String × Json)) : Option ServerMessage :=
  match reqDec fs "message_id" decodeString, reqDec fs "data" decodeString,
      reqDec fs "index" decodeU32 with
  | some a, some b, some c => some (.AudioOutput a b c)
  | _, _, _ => none

/-- decToolCall decodes the `tool_call` variant's fields. -/
def decToolCall (fs : List (String × Json)) : Option ServerMessage :=
  match reqDec fs "tool_call_id" decodeString, reqDec fs "name" decodeString,
      reqDec fs "parameters" some with
  | some a, some b, some c => some (.ToolCall a b c)
  | _, _, _ => none

/-- decToolResponseS decodes the server `tool_response` variant's
fields. -/
def decToolResponseS (fs : List (String × Json)) : Option ServerMessage :=
  match reqDec fs "tool_call_id" decodeString, reqDec fs "content" decodeString with
  | some a, some b => some (.ToolResponse a b)
  | _, _ => none

/-- decToolErrorS decodes the server `tool_error` variant's fields. -/
def decToolErrorS (fs : List (String × Json)) : Option ServerMessage :=
  match reqDec fs "tool_call_id" decodeString, reqDec fs "error" decodeString,
      optDecS fs "code" decodeString with
  | some a, some b, some c => some (.ToolError a b c)
  | _, _, _ => none

/-- decEmotionInference decodes the `emotion_inference` variant's
fields. -/
def decEmotionInference (fs : List (String × Json)) : Option ServerMessage :=
  match reqDec fs "inference" decodeEmotionInference with
  | some a => some (.EmotionInference a)
  | none => none

/-- decErrorS decodes the `error` variant's fields. -/
def decErrorS (fs : List (String × Json)) : Option ServerMessage :=
  match reqDec fs "message" decodeString, reqDec fs "code" decodeString,
      optDecS fs "details" some with
  | some a, some b, some c => some (.Error a b c)
  | _, _, _ => none

/-- decWarning decodes the `warning` variant's fields. -/
def decWarning (fs : List (String × Json)) : Option ServerMessage :=
  match reqDec fs "message" decodeString, optDecS fs "code" decodeString with
  | some a, some b => some (.Warning a b)
  | _, _ => none

/-- decSessionEnded decodes the `session_ended` variant's fields. -/
def decSessionEnded (fs : List (String × Json)) : Option ServerMessage :=
  match reqDec fs "reason" decodeString, optDecS fs "info" some with
  | some a, some b => some (.SessionEnded a b)
  | _, _ => none

/-- serverVariantDecoders is the discriminator table of the derived
`ServerMessage` deserializer: one decoder per recognized snake_case
tag. -/
def serverVariantDecoders : List (String × (List (String × Json) → Option ServerMessage)) :=
  [("session_started", decSessionStarted),
   ("user_message", decUserMessage),
   ("assistant_message", decAssistantMessage),
   ("audio_output", decAudioOutput),
   ("tool_call", decToolCall),
   ("tool_response", decToolResponseS),
   ("tool_error", decToolErrorS),
   ("emotion_inference", decEmotionInference),
   ("error", decErrorS),
   ("warning", decWarning),
   ("session_ended", decSessionEnded)]

/-- decodeServerMessage mirrors the derived internally tagged
deserialization of `ServerMessage`: the `type` tag must be a string;
a recognized tag decodes that variant's fields; an unrecognized tag
yields `Unknown` (the `#[serde(other)]` catch-all); a missing or
non-string tag, or a non-object frame, is a decode error. -/
def decodeServerMessage : Json → Option ServerMessage
  | .obj fs =>
    match lookupKey fs "type" with
    | some (.str tag) =>
      match lookupKey serverVariantDecoders tag with
      | some dec => dec fs
      | none => some .Unknown
    | _ => none
  | _ => none

/-- TextPayload is the content of an inbound text frame: either a
parseable JSON document or malformed text (on which
`serde_json::from_str` fails before any field is examined). -/
inductive TextPayload where
  | jsonText (j : Json) : TextPayload
  | malformed : TextPayload

/-- parseText is `serde_json::from_str::<ServerMessage>` on a text
frame's content. -/
def parseText : TextPayload → Option ServerMessage
  | .jsonText j => decodeServerMessage j
  | .malformed => none

/-- WsFrame mirrors `tungstenite::protocol::Message`: Text, Binary,
Ping, Pong, Close and raw Frame variants (non-text payloads are opaque
to the claims). -/
inductive WsFrame where
  | text (p : TextPayload) : WsFrame
  | binary : WsFrame
  | ping : WsFrame
  | pong : WsFrame
  | close : WsFrame
  | frame : WsFrame

/-- WsEvent is one step of the inbound WebSocket stream as
`self.ws.next().await` sees it: a successfully received frame
(`Some(Ok(m))`), a transport error (`Some(Err(e))`), or the end of the
stream (`None`). -/
inductive WsEvent where
  | msg (f : WsFrame) : WsEvent
  | err (e : WsError) : WsEvent
  | eof : WsEvent

/-- receive mirrors `ChatSocket::receive` from src/evi/chat.rs lines
232-243: a text frame is decoded (`?` turns a decode failure into
`Error::Json`), a close frame and end of stream give `Ok(None)`, a
transport error is returned as `Error::WebSocket`, and every other
frame kind gives `Ok(Some(ServerMessage::Unknown))`. -/
def receive (ev : WsEvent) : Except Error (Option ServerMessage) :=
  match ev with
  | .msg (.text p) =>
    match parseText p with
    | some message => .ok (some message)
    | none => .error .json
  | .msg .close => .ok none
  | .err e => .error (.webSocket e)
  | .eof => .ok none
  | .msg _ => .ok (some .Unknown)

/-- WsState is the underlying duplex connection's coarse state, as the
tungstenite stream tracks it: open, or closed after a close handshake. -/
inductive WsState where
  | opened : WsState
  | closed : WsState
deriving DecidableEq

/-- wsSend models `self.ws.send(Message::Text(json))` of
tokio-tungstenite: on an open connection the write succeeds; on a
closed connection the write attempt fails with the transport's
AlreadyClosed error. -/
def wsSend (st : WsState) (_frame : Json) : Except WsError Unit :=
  match st with
  | .opened => .ok ()
  | .closed => .error .alreadyClosed

/-- SendOutcome records one `ChatSocket::send_message` call: whether the
wire write was attempted, and the call's result. -/
structure SendOutcome where
  attempted_write : Bool
  result : Except Error Unit

/-- send_message mirrors `ChatSocket::send_message` from
src/evi/chat.rs lines 225-229: the message is serialized
(`serde_json::to_string` cannot fail on `ClientMessage`) and then the
wire write is attempted unconditionally; there is no closed-state check
before the write. -/
def send_message (st : WsState) (message : ClientMessage) : SendOutcome :=
  { attempted_write := true
    result :=
      match wsSend st (encodeClientMessage message) with
      | .ok _ => .ok ()
      | .error e => .error (.webSocket e) }

/-! Test fixtures: concrete responses, operations and jitter streams used
by the concrete evaluations below. -/

/-- resp500 is a bare 500 Internal Server Error response. -/
def resp500 : HttpResponse :=
  { status := 500, retry_after := none, body := none, err_details := none }

/-- resp200 is a bare 200 OK response. -/
def resp200 : HttpResponse :=
  { status := 200, retry_after := none, body := none, err_details := none }

/-- resp429 is a 429 Too Many Requests response whose retry-after header
parsed to 5 seconds. -/
def resp429 : HttpResponse :=
  { status := 429, retry_after := some 5, body := none, err_details := none }

/-- resp400 is a 400 Bad Request response with an unparseable body. -/
def resp400 : HttpResponse :=
  { status := 400, retry_after := none, body := some "bad request", err_details := none }

/-- rsHalf is the jitter stream whose every sample is 1/2, which makes
every jittered delay equal to the current interval exactly. -/
def rsHalf : Nat → ℚ := fun _ => 1/2

/-- timeoutErr is a reqwest send failure whose `is_timeout()` is true. -/
def timeoutErr : ReqwestError := { timeout := true, connect := false, status := none }

/-- op500 answers every attempt with a 500 response. -/
def op500 : Nat → AttemptOutcome := fun _ => .response resp500

/-- op429then200 answers the first attempt with the retry-after-carrying
429 and every later attempt with 200. -/
def op429then200 : Nat → AttemptOutcome :=
  fun k => if k = 0 then .response resp429 else .response resp200

/-- opRateLimited fails the first attempt with a rate-limit error whose
retry-after is 5 seconds and succeeds afterwards. -/
def opRateLimited : Nat → Except Error Nat :=
  fun k => if k = 0 then .error (.rateLimit (some 5)) else .ok 42

/-! Helper lemmas about the retry loops. -/

/-- attemptResult consults max_retries only through its positivity, so
any two positive values give the same per-attempt classification. -/
theorem attemptResult_pos_congr (m₁ m₂ : Nat) (h₁ : 1 ≤ m₁) (h₂ : 1 ≤ m₂)
    (o : AttemptOutcome) : attemptResult m₁ o = attemptResult m₂ o := by
  cases o with
  | sendErr e => rfl
  | response r =>
    simp only [attemptResult]
    split
    · rw [if_pos (show 0 < m₁ from h₁), if_pos (show 0 < m₂ from h₂)]
    · rfl

/-- retryOperation behaves identically for any two positive max_retries
values. -/
theorem retryOperation_pos_congr (m₁ m₂ : Nat) (h₁ : 1 ≤ m₁) (h₂ : 1 ≤ m₂)
    (op : Nat → AttemptOutcome) (rs : Nat → ℚ) :
    ∀ (fuel : Nat) (b : ExponentialBackoff) (k : Nat) (acc : List ℚ),
      retryOperation m₁ op rs fuel b k acc = retryOperation m₂ op rs fuel b k acc := by
  intro fuel
  induction fuel with
  | zero => intro b k acc; rfl
  | succ n ih =>
    intro b k acc
    simp only [retryOperation, attemptResult_pos_congr m₁ m₂ h₁ h₂ (op k)]
    cases attemptResult m₂ (op k) with
    | ok r => rfl
    | error be =>
      cases be with
      | permanent e => rfl
      | transient e =>
        cases b.next_backoff acc.sum (rs k) with
        | none => rfl
        | some db => exact ih db.2 (k + 1) (acc ++ [db.1])

/-- ExponentialBackoff.step changes only the current interval. -/
theorem step_max_elapsed (b : ExponentialBackoff) :
    b.step.max_elapsed_time = b.max_elapsed_time := rfl

/-- When every attempt yields a response with a retryable status and
max_retries is positive, the loop (run under a backoff whose elapsed
bound is 60 s) can only terminate by exhausting the elapsed bound: the
result is the generic retryable-status error and the slept delays sum
to more than 60 s. -/
theorem retryOperation_const_retryable (mr : Nat) (hmr : 1 ≤ mr) (r : HttpResponse)
    (hr : should_retry_status r.status = true) (rs : Nat → ℚ) :
    ∀ (fuel : Nat) (b : ExponentialBackoff) (k : Nat) (acc : List ℚ)
      (res : Except Error HttpResponse) (n : Nat) (ds : List ℚ),
      b.max_elapsed_time = some 60 →
      retryOperation mr (fun _ => .response r) rs fuel b k acc = some (res, n, ds) →
      res = .error (.other ("Received retryable status: " ++ toString r.status)) ∧
        60 < ds.sum := by
  intro fuel
  induction fuel with
  | zero => intro b k acc res n ds _ h; exact absurd h (by simp [retryOperation])
  | succ m ih =>
    intro b k acc res n ds hb h
    have hcls : attemptResult mr (AttemptOutcome.response r)
        = .error (.transient (.other ("Received retryable status: " ++ toString r.status))) := by
      simp [attemptResult, hr, Nat.lt_of_lt_of_le Nat.zero_lt_one hmr]
    by_cases helapsed : (60 : ℚ) < acc.sum
    · simp only [retryOperation, hcls, ExponentialBackoff.next_backoff, hb,
        if_pos helapsed, Option.some.injEq, Prod.mk.injEq] at h
      exact ⟨h.1.symm, h.2.2 ▸ helapsed⟩
    · simp only [retryOperation, hcls, ExponentialBackoff.next_backoff, hb,
        if_neg helapsed] at h
      exact ih b.step (k + 1) (acc ++ [jittered b.randomization_factor (rs k) b.current_interval])
        res n ds (by rw [step_max_elapsed, hb]) h

/-- C1 (counterexample).  The claim says the engine retries only while
`attempts < max_retries` and, on exhaustion, returns the last concrete
error annotated with the attempt count, never a generic failure.  With
`max_retries = 1` and an endpoint that always answers 500, the engine
nevertheless makes 12 attempts (it retries until the 60 s elapsed bound
of its backoff is exceeded) and returns the generic
`Received retryable status: 500` message. -/
theorem C1_counterexample :
    (execute_request 1 op500 rsHalf 20).map (fun x => (x.1, x.2.1))
      = some (.error (.other "Received retryable status: 500"), 12) := by
  norm_num [execute_request, retryOperation, attemptResult, should_retry_status, httpBackoff,
    defaultBackoff, ExponentialBackoff.next_backoff, ExponentialBackoff.step, jittered,
    op500, resp500, rsHalf, min_def]
  decide

/-- C1 (amended).  For Transient outcomes the engine retries while the
elapsed time is within the 60 s `max_elapsed_time` bound of its backoff;
`max_retries` is consulted only as a zero/non-zero switch, so any two
positive values behave identically; and when the elapsed bound is
exceeded on status-based retries the engine stops and returns the
generic `Received retryable status` error (the delays slept by then sum
to more than 60 s). -/
theorem C1_amended :
    (∀ (m₁ m₂ : Nat) (op : Nat → AttemptOutcome) (rs : Nat → ℚ) (fuel : Nat),
      1 ≤ m₁ → 1 ≤ m₂ →
      execute_request m₁ op rs fuel = execute_request m₂ op rs fuel) ∧
    (∀ (mr : Nat) (r : HttpResponse) (rs : Nat → ℚ) (fuel : Nat)
        (res : Except Error HttpResponse) (n : Nat) (ds : List ℚ),
      1 ≤ mr → should_retry_status r.status = true →
      execute_request mr (fun _ => .response r) rs fuel = some (res, n, ds) →
      res = .error (.other ("Received retryable status: " ++ toString r.status)) ∧
        60 < ds.sum) := by
  constructor
  · intro m₁ m₂ op rs fuel h₁ h₂
    exact retryOperation_pos_congr m₁ m₂ h₁ h₂ op rs fuel httpBackoff 0 []
  · intro mr r rs fuel res n ds hmr hr h
    exact retryOperation_const_retryable mr hmr r hr rs fuel httpBackoff 0 [] res n ds rfl h

/-- C1 (witness): the amended statement applied at `max_retries` 1 and 2
with the always-500 endpoint and the constant 1/2 jitter stream. -/
theorem C1_amended_witness :
    execute_request 1 op500 rsHalf 20 = execute_request 2 op500 rsHalf 20 ∧
    ((Except.error (Error.other ("Received retryable status: " ++ toString resp500.status))
        : Except Error HttpResponse)
      = .error (.other ("Received retryable status: " ++ toString resp500.status)) ∧
      (60 : ℚ) < ([1/2, 3/4, 9/8, 27/16, 81/32, 243/64, 729/128, 2187/256, 6561/512,
        19683/1024, 59049/2048] : List ℚ).sum) := by
  have hrun : execute_request 1 op500 rsHalf 20
      = some (.error (.other ("Received retryable status: " ++ toString resp500.status)), 12,
        ([1/2, 3/4, 9/8, 27/16, 81/32, 243/64, 729/128, 2187/256, 6561/512,
          19683/1024, 59049/2048] : List ℚ)) := by
    norm_num [execute_request, retryOperation, attemptResult, should_retry_status, httpBackoff,
      defaultBackoff, ExponentialBackoff.next_backoff, ExponentialBackoff.step, jittered,
      op500, resp500, rsHalf, min_def]
  constructor
  · exact C1_amended.1 1 2 op500 rsHalf 20 (by norm_num) (by norm_num)
  · exact C1_amended.2 1 resp500 rsHalf 20 _ 12 _ (by norm_num) (by decide) hrun

/-- C2.  The classifier `is_retryable_error` marks `Error::Timeout` as
Transient and `HttpClient::should_retry` marks a timed-out send as
retryable, yet `HttpClient::execute_request` maps a timed-out send to
`BackoffError::permanent(Error::Timeout)` before ever consulting
`should_retry`, so the request returns `Error::Timeout` after exactly
one attempt with no retry and no sleep — the code contradicts its own
classifier on the claim's "a request timeout is Transient and therefore
retried". -/
theorem C2_timeout_classified_transient_but_not_retried :
    is_retryable_error .timeout = true ∧
    should_retry timeoutErr = true ∧
    execute_request 3 (fun _ => .sendErr timeoutErr) rsHalf 10
      = some (.error .timeout, 1, []) := by
  exact ⟨rfl, rfl, rfl⟩

/-- C3 (counterexample).  The claim says a retried 429 carrying
`retry-after = 5` sleeps exactly 5 s before the single retry.  In the
engine (`HttpClient::execute_request`) the retry-after header of a 429
is never consulted: the 429 becomes a generic transient error and the
delay is the backoff's computed 0.5 s first interval, not 5 s. -/
theorem C3_counterexample :
    execute_request 3 op429then200 rsHalf 20 = some (.ok resp200, 2, [1/2]) ∧
    ((1 : ℚ)/2 ≠ 5) := by
  constructor
  · norm_num [execute_request, retryOperation, attemptResult, should_retry_status, httpBackoff,
      defaultBackoff, ExponentialBackoff.next_backoff, ExponentialBackoff.step, jittered,
      op429then200, resp429, resp200, rsHalf, min_def]
  · norm_num

/-- C3 (amended).  The standalone retry helper `retry_with_backoff` in
src/core/retry.rs does implement the claimed behaviour: when the first
attempt fails with a rate-limit error carrying `retry_after = R` and the
second attempt succeeds, it performs exactly one retry after a delay of
exactly R seconds (unjittered, not the computed backoff).  The HTTP
engine itself does not use this helper (see the counterexample). -/
theorem C3_retry_after_exact {T : Type} (config : RetryConfig) (op : Nat → Except Error T)
    (rs : Nat → ℚ) (R : Nat) (v : T) (fuel : Nat)
    (hmr : 1 ≤ config.max_retries) (h0 : op 0 = .error (.rateLimit (some R)))
    (h1 : op 1 = .ok v) :
    run_retry_with_backoff config op rs (fuel + 2) = some (.ok v, 1, [(R : ℚ)]) := by
  have hcond : ¬(config.max_retries ≤ 0 ∨ is_retryable_error (Error.rateLimit (some R)) = false) := by
    rintro (hle | hfalse)
    · omega
    · simp [is_retryable_error] at hfalse
  unfold run_retry_with_backoff
  simp only [retry_with_backoff, h0, if_neg hcond, get_retry_after, zero_add, h1,
    List.nil_append]

/-- C3 (witness): the amended statement applied to the default config
and the operation failing once with `RateLimit { retry_after: Some(5) }`. -/
theorem C3_retry_after_exact_witness :
    run_retry_with_backoff defaultRetryConfig opRateLimited rsHalf 10
      = some (.ok 42, 1, [5]) := by
  have h := C3_retry_after_exact defaultRetryConfig opRateLimited rsHalf 5 42 8
    (by norm_num [defaultRetryConfig]) rfl rfl
  simpa using h

/-- C5.  A bearer (access-token) credential is expired exactly when
`now ≥ created_at + expires_in`; a static API-key credential is never
expired. -/
theorem C5_is_expired_iff :
    (∀ (t : AuthToken) (now : Int),
      Auth.is_expired (.AccessToken t) now = true ↔ t.created_at + (t.expires_in : Int) ≤ now) ∧
    (∀ (key : String) (now : Int), Auth.is_expired (.ApiKey key) now = false) := by
  constructor
  · intro t now
    simp [Auth.is_expired, AuthToken.is_expired]
  · intro key now
    rfl

/-- C7.  A response whose status is 400 is never retried: `request`
returns after exactly one attempt, sleeps no backoff delay, and the
returned error is the classified `Error::Api` with status 400. -/
theorem C7_permanent_single_attempt :
    ∀ (mr : Nat) (op : Nat → AttemptOutcome) (rs : Nat → ℚ) (fuel : Nat) (r : HttpResponse),
      op 0 = .response r → r.status = 400 →
      request mr op rs (fuel + 1) = some (.error (handle_error_response r), 1, []) ∧
      ∃ msg code, handle_error_response r = .api 400 msg code r.body := by
  intro mr op rs fuel r h0 h400
  have hni : should_retry_status r.status = false := by rw [h400]; rfl
  have hns : is_success r.status = false := by rw [h400]; rfl
  constructor
  · unfold request execute_request
    rw [retryOperation, h0]
    simp [attemptResult, hni, hns]
  · unfold handle_error_response
    rw [h400]
    cases hd : r.err_details with
    | some mc => exact ⟨mc.1, mc.2, by simp⟩
    | none => exact ⟨"HTTP " ++ toString 400 ++ " error", none, by simp⟩

/-- C7 (witness): the statement applied to the concrete 400 response. -/
theorem C7_permanent_single_attempt_witness :
    request 3 (fun _ => .response resp400) rsHalf 10
      = some (.error (handle_error_response resp400), 1, []) ∧
    ∃ msg code, handle_error_response resp400 = .api 400 msg code resp400.body := by
  exact C7_permanent_single_attempt 3 (fun _ => .response resp400) rsHalf 9 resp400 rfl rfl

/-- C8 (counterexample).  The claim says a send() after close() returns
a logical "already closed" error without attempting a wire write.  In
`ChatSocket::send_message` there is no closed-state check: the wire
write is attempted unconditionally, and on a closed connection the
failure is the transport's AlreadyClosed error produced by that write
attempt. -/
theorem C8_counterexample :
    (send_message WsState.closed ClientMessage.PauseAssistant).attempted_write = true ∧
    (send_message WsState.closed ClientMessage.PauseAssistant).result
      = .error (.webSocket .alreadyClosed) := ⟨rfl, rfl⟩

/-- C8 (amended).  `ChatSocket::close` takes the socket by value, so a
subsequent send() or a second close() on the handle is impossible at
compile time rather than failing at run time; `send_message` itself
performs no closed-state check — it always attempts the wire write, and
a send on a closed underlying connection fails with the transport's
AlreadyClosed error raised by that write attempt, not by a logical
pre-write check. -/
theorem C8_send_always_writes :
    ∀ (st : WsState) (m : ClientMessage),
      (send_message st m).attempted_write = true ∧
      (send_message WsState.closed m).result = .error (.webSocket .alreadyClosed) := by
  intro st m
  exact ⟨rfl, rfl⟩

/-- C10.  A successfully received frame that is neither text nor close —
binary, ping, pong, or a raw frame — makes receive() return
`Ok(Some(ServerMessage::Unknown))`: no error, no skipping, no end of
stream. -/
theorem C10_nontext_frames_unknown :
    receive (.msg .binary) = .ok (some .Unknown) ∧
    receive (.msg .ping) = .ok (some .Unknown) ∧
    receive (.msg .pong) = .ok (some .Unknown) ∧
    receive (.msg .frame) = .ok (some .Unknown) :=
  ⟨rfl, rfl, rfl, rfl⟩

/-! Round-trip lemmas for the client-side codecs. -/

/-- Round trip for the AudioEncoding unit enum. -/
@[simp] theorem audioEncoding_rt (x : AudioEncoding) :
    decodeAudioEncoding (encodeAudioEncoding x) = some x := by
  cases x <;> rfl

/-- Round trip for the AudioFormat unit enum. -/
@[simp] theorem audioFormat_rt (x : AudioFormat) :
    decodeAudioFormat (encodeAudioFormat x) = some x := by
  cases x <;> rfl

/-- Round trip for the ContextType unit enum. -/
@[simp] theorem contextType_rt (x : ContextType) :
    decodeContextType (encodeContextType x) = some x := by
  cases x <;> rfl

/-- Round trip for `u32` values through an integer JSON number. -/
@[simp] theorem decodeU32_natCast (n : Nat) : decodeU32 (.num (n : Int)) = some n := by
  simp [decodeU32]

/-- Round trip for `String` values. -/
@[simp] theorem decodeString_str (s : String) : decodeString (.str s) = some s := rfl

/-- Round trip for AudioConfig. -/
@[simp] theorem audioConfig_rt (a : AudioConfig) :
    decodeAudioConfig (encodeAudioConfig a) = some a := by
  rcases a with ⟨ie, isr, oe, osr, ofmt⟩
  cases ie <;> cases isr <;> cases oe <;> cases osr <;> cases ofmt <;>
    simp [encodeAudioConfig, decodeAudioConfig, optField, optDec, lookupKey]

/-- Round trip for Context. -/
@[simp] theorem context_rt (c : Context) : decodeContext (encodeContext c) = some c := by
  rcases c with ⟨ct, t⟩
  simp [encodeContext, decodeContext, reqDec, lookupKey]

/-- Round trip for the variable map. -/
@[simp] theorem decodeStringMap_encode (l : List (String × String)) :
    decodeStringMap (l.map fun p => (p.1, .str p.2)) = some l := by
  induction l with
  | nil => rfl
  | cons p t ih => simp [decodeStringMap, ih]

/-- Round trip for a list of strings. -/
@[simp] theorem decodeStringList_map (l : List String) :
    decodeStringList (l.map .str) = some l := by
  induction l with
  | nil => rfl
  | cons s t ih => simp [decodeStringList, ih]

/-- Round trip for BuiltinTool. -/
@[simp] theorem builtinTool_rt (t : BuiltinTool) :
    decodeBuiltinTool (encodeBuiltinTool t) = some t := by
  rcases t with ⟨name, cfg⟩
  cases cfg <;> simp [encodeBuiltinTool, decodeBuiltinTool, optField, optDec, reqDec, lookupKey]

/-- Round trip for a list of builtin tools. -/
@[simp] theorem builtinToolList_rt (l : List BuiltinTool) :
    decodeBuiltinToolList (l.map encodeBuiltinTool) = some l := by
  induction l with
  | nil => rfl
  | cons t r ih => simp [decodeBuiltinToolList, ih]

/-- Round trip for SessionSettings. -/
@[simp] theorem sessionSettings_rt (s : SessionSettings) :
    decodeSessionSettings (encodeSessionSettings s) = some s := by
  rcases s with ⟨a, sp, cx, vars, tls, bts⟩
  cases a <;> cases sp <;> cases cx <;> cases vars <;> cases tls <;> cases bts <;>
    simp [encodeSessionSettings, decodeSessionSettings, optField, optDec, lookupKey,
      encodeVariables, decodeVariables]

/-- C6.  Encoding any ClientMessage to its JSON frame and decoding that
frame with the discriminator-keyed inverse reproduces a structurally
equal value, for all eight variants. -/
theorem C6_client_message_roundtrip (m : ClientMessage) :
    decodeClientMessage (encodeClientMessage m) = some m := by
  cases m with
  | SessionSettings s =>
    simp [encodeClientMessage, decodeClientMessage, lookupKey]
  | AudioInput data => rfl
  | UserInput text => rfl
  | AssistantInput text => rfl
  | ToolResponse tcid content tn =>
    cases tn <;> rfl
  | ToolError tcid err code tn =>
    cases code <;> cases tn <;> rfl
  | PauseAssistant => rfl
  | ResumeAssistant => rfl

/-- lookupKey misses every key that is not among the list's keys. -/
theorem lookupKey_eq_none {α : Type} (l : List (String × α)) (k : String)
    (h : k ∉ l.map Prod.fst) : lookupKey l k = none := by
  induction l with
  | nil => rfl
  | cons p rest ih =>
    simp only [List.map_cons, List.mem_cons] at h
    push_neg at h
    rcases p with ⟨k2, v⟩
    simp only [lookupKey]
    rw [if_neg (fun he => h.1 he.symm)]
    exact ih h.2

/-- C4.  On an open duplex session, receive() returns `None` on a
server close frame and on transport EOF, returns the transport error on
abnormal termination, turns a text frame's decode failure into an error
and otherwise returns the decoded ServerMessage; and a frame whose
`type` discriminator is not among the recognized tags decodes to
`Unknown` rather than failing. -/
theorem C4_receive_contract :
    receive (.msg .close) = .ok none ∧
    receive .eof = .ok none ∧
    (∀ e : WsError, receive (.err e) = .error (.webSocket e)) ∧
    (∀ p, parseText p = none → receive (.msg (.text p)) = .error .json) ∧
    (∀ p m, parseText p = some m → receive (.msg (.text p)) = .ok (some m)) ∧
    (∀ (fs : List (String × Json)) (tag : String),
      lookupKey fs "type" = some (.str tag) →
      tag ∉ serverVariantDecoders.map Prod.fst →
      decodeServerMessage (.obj fs) = some .Unknown) := by
  refine ⟨rfl, rfl, fun e => rfl, ?_, ?_, ?_⟩
  · intro p h
    simp [receive, h]
  · intro p m h
    simp [receive, h]
  · intro fs tag htag hmem
    simp [decodeServerMessage, htag, lookupKey_eq_none _ _ hmem]

/-- C4 (witness): the contract applied to a close frame, an I/O
transport error, a malformed text frame, a well-formed `user_message`
frame, and a frame with the unrecognized tag `glyph_event`. -/
theorem C4_receive_contract_witness :
    receive (.msg .close) = .ok none ∧
    receive (.err .ioErr) = .error (.webSocket .ioErr) ∧
    receive (.msg (.text .malformed)) = .error .json ∧
    receive (.msg (.text (.jsonText (.obj [("type", .str "user_message"),
        ("message_id", .str "m1"), ("text", .str "hi")]))))
      = .ok (some (.UserMessage "m1" "hi")) ∧
    decodeServerMessage (.obj [("type", .str "glyph_event")]) = some .Unknown := by
  refine ⟨C4_receive_contract.1, C4_receive_contract.2.2.1 .ioErr,
    C4_receive_contract.2.2.2.1 .malformed rfl,
    C4_receive_contract.2.2.2.2.1 _ (.UserMessage "m1" "hi") rfl,
    C4_receive_contract.2.2.2.2.2 _ "glyph_event" rfl (by decide)⟩

/-! Lemmas about the deterministic part of the exponential backoff. -/

/-- Advancing preserves the randomization factor. -/
theorem advance_rf (b : ExponentialBackoff) (n : Nat) :
    (b.advance n).randomization_factor = b.randomization_factor := by
  induction n with
  | zero => rfl
  | succ n ih => simp [ExponentialBackoff.advance, ExponentialBackoff.step, ih]

/-- Advancing preserves the multiplier. -/
theorem advance_mult (b : ExponentialBackoff) (n : Nat) :
    (b.advance n).multiplier = b.multiplier := by
  induction n with
  | zero => rfl
  | succ n ih => simp [ExponentialBackoff.advance, ExponentialBackoff.step, ih]

/-- Advancing preserves the interval cap. -/
theorem advance_maxi (b : ExponentialBackoff) (n : Nat) :
    (b.advance n).max_interval = b.max_interval := by
  induction n with
  | zero => rfl
  | succ n ih => simp [ExponentialBackoff.advance, ExponentialBackoff.step, ih]

/-- After n steps from a config-built backoff with multiplier ≥ 1, the
current interval is `initial · multiplier^n` capped at the max
interval. -/
theorem advance_current (c : RetryConfig) (hm : 1 ≤ c.backoff_multiplier)
    (h0 : 0 ≤ c.initial_backoff) (hle : c.initial_backoff ≤ c.max_backoff) (n : Nat) :
    ((create_backoff c).advance n).current_interval
      = min (c.initial_backoff * c.backoff_multiplier ^ n) c.max_backoff := by
  induction n with
  | zero =>
    simp only [ExponentialBackoff.advance, create_backoff, pow_zero, mul_one]
    exact (min_eq_left hle).symm
  | succ n ih =>
    have hmax0 : 0 ≤ c.max_backoff := le_trans h0 hle
    show min (((create_backoff c).advance n).current_interval
        * ((create_backoff c).advance n).multiplier) ((create_backoff c).advance n).max_interval
      = _
    rw [advance_mult, advance_maxi, ih]
    show min (min (c.initial_backoff * c.backoff_multiplier ^ n) c.max_backoff
        * c.backoff_multiplier) c.max_backoff = _
    rcases le_or_lt (c.initial_backoff * c.backoff_multiplier ^ n) c.max_backoff with hc | hc
    · rw [min_eq_left hc, pow_succ, ← mul_assoc]
    · rw [min_eq_right (le_of_lt hc)]
      have h1 : c.max_backoff ≤ c.max_backoff * c.backoff_multiplier :=
        le_mul_of_one_le_right hmax0 hm
      rw [min_eq_right h1]
      have hmono : c.initial_backoff * c.backoff_multiplier ^ n
          ≤ c.initial_backoff * c.backoff_multiplier ^ (n + 1) := by
        have hp : c.backoff_multiplier ^ n ≤ c.backoff_multiplier ^ (n + 1) :=
          pow_le_pow_right₀ hm (Nat.le_succ n)
        exact mul_le_mul_of_nonneg_left hp h0
      have h2 : c.max_backoff ≤ c.initial_backoff * c.backoff_multiplier ^ (n + 1) := by
        linarith
      rw [min_eq_right h2]

/-- c9cfg is a concrete retry configuration: 3 retries, 1 s initial,
10 s max, multiplier 2. -/
def c9cfg : RetryConfig :=
  { max_retries := 3, initial_backoff := 1, max_backoff := 10, backoff_multiplier := 2 }

/-- C9.  For retry attempt n (0-indexed) with no server hint, the
computed delay is exactly `clamp(initial·multiplier^n, initial, max)`
scaled by `(1/2 + r)` for the uniform sample `r ∈ [0,1]` — an affine
sweep of the interval within ± 1/2 (the default jitter fraction) of the
clamped value — and in particular it deviates from the clamped value by
at most half of it. -/
theorem C9_backoff_formula (config : RetryConfig) (n : Nat) (r : ℚ)
    (hm : 1 ≤ config.backoff_multiplier) (h0 : 0 ≤ config.initial_backoff)
    (hle : config.initial_backoff ≤ config.max_backoff) :
    RetryConfig.calculate_backoff config n r
      = max config.initial_backoff
          (min (config.initial_backoff * config.backoff_multiplier ^ n) config.max_backoff)
        * (1/2 + r) ∧
    (0 ≤ r → r ≤ 1 →
      |RetryConfig.calculate_backoff config n r
          - max config.initial_backoff
              (min (config.initial_backoff * config.backoff_multiplier ^ n) config.max_backoff)|
        ≤ (1/2) * max config.initial_backoff
            (min (config.initial_backoff * config.backoff_multiplier ^ n) config.max_backoff)) := by
  have hp : (1 : ℚ) ≤ config.backoff_multiplier ^ n := one_le_pow₀ hm
  have hXi : config.initial_backoff
      ≤ config.initial_backoff * config.backoff_multiplier ^ n := by nlinarith
  have hclamp : max config.initial_backoff
      (min (config.initial_backoff * config.backoff_multiplier ^ n) config.max_backoff)
      = min (config.initial_backoff * config.backoff_multiplier ^ n) config.max_backoff :=
    max_eq_right (le_min hXi hle)
  have hcalc : RetryConfig.calculate_backoff config n r
      = min (config.initial_backoff * config.backoff_multiplier ^ n) config.max_backoff
        * (1/2 + r) := by
    show jittered ((create_backoff config).advance n).randomization_factor r
        ((create_backoff config).advance n).current_interval = _
    unfold jittered
    rw [advance_current config hm h0 hle n, advance_rf]
    show min (config.initial_backoff * config.backoff_multiplier ^ n) config.max_backoff
        * (1 - 1/2 + 2 * (1/2) * r) = _
    ring
  have hcnn : (0 : ℚ)
      ≤ min (config.initial_backoff * config.backoff_multiplier ^ n) config.max_backoff :=
    le_trans h0 (le_min hXi hle)
  constructor
  · rw [hclamp]
    exact hcalc
  · intro hr0 hr1
    rw [hclamp, hcalc]
    have hsplit : min (config.initial_backoff * config.backoff_multiplier ^ n) config.max_backoff
          * (1/2 + r)
        - min (config.initial_backoff * config.backoff_multiplier ^ n) config.max_backoff
      = min (config.initial_backoff * config.backoff_multiplier ^ n) config.max_backoff
          * (r - 1/2) := by ring
    rw [hsplit, abs_mul, abs_of_nonneg hcnn]
    have habs : |r - 1/2| ≤ 1/2 := abs_le.mpr ⟨by linarith, by linarith⟩
    calc min (config.initial_backoff * config.backoff_multiplier ^ n) config.max_backoff
          * |r - 1/2|
        ≤ min (config.initial_backoff * config.backoff_multiplier ^ n) config.max_backoff
          * (1/2) := mul_le_mul_of_nonneg_left habs hcnn
      _ = (1/2) * min (config.initial_backoff * config.backoff_multiplier ^ n)
            config.max_backoff := mul_comm _ _

/-- C9 (witness): the formula applied to the concrete config (initial 1,
max 10, multiplier 2) at attempt 2 with jitter sample 1. -/
theorem C9_backoff_formula_witness :
    RetryConfig.calculate_backoff c9cfg 2 1
      = max c9cfg.initial_backoff
          (min (c9cfg.initial_backoff * c9cfg.backoff_multiplier ^ 2) c9cfg.max_backoff)
        * (1/2 + 1) ∧
    ((0 : ℚ) ≤ 1 → (1 : ℚ) ≤ 1 →
      |RetryConfig.calculate_backoff c9cfg 2 1
          - max c9cfg.initial_backoff
              (min (c9cfg.initial_backoff * c9cfg.backoff_multiplier ^ 2) c9cfg.max_backoff)|
        ≤ (1/2) * max c9cfg.initial_backoff
            (min (c9cfg.initial_backoff * c9cfg.backoff_multiplier ^ 2) c9cfg.max_backoff)) :=
  C9_backoff_formula c9cfg 2 1 (by norm_num [c9cfg]) (by norm_num [c9cfg]) (by norm_num [c9cfg])

end Hume
